import Mathlib

set_option maxRecDepth 8192

/-!
Verification of the hic-straw build orchestration and prebuilt-artifact
fallback logic, as implemented in setup.py and build_prebuilt.py.

The development shallowly embeds the decision logic of the two scripts:
pure string computations (the fingerprint-to-filename rendering) become
Lean functions on String and Nat; each effectful stage (link probing,
consent prompt, prebuilt resolution, the whole build_extensions pipeline)
becomes a function from its environment inputs (trial outcomes, the user
reply, the set of files in the prebuilt directory) to an explicit record
of emitted warnings, file copies and the final outcome.
-/

namespace Straw

/-- Python str.lower as used on the ASCII platform and reply strings of the
two scripts: lower-case every character. -/
def pyLower (s : String) : String := ⟨s.data.map Char.toLower⟩

/-! ### Fingerprint rendering (build_prebuilt.py get_target_filename, setup.py _use_prebuilt_binary) -/

/-- Rendering of an already lower-cased platform fingerprint
(os, arch, runtime major.minor) into the artifact filename, as done by
get_target_filename in build_prebuilt.py lines 26-35 after the two
platform introspection calls: literal module name, the two platform
fields, the literal cp, the runtime version twice, and the extension,
which is .pyd when the os field is windows and .so otherwise. -/
def renderFingerprint (os arch : String) (major minor : Nat) : String :=
  let ver := Nat.repr major ++ "." ++ Nat.repr minor
  let ext := if os = "windows" then ".pyd" else ".so"
  "hicstraw." ++ os ++ "." ++ arch ++ ".cp" ++ ver ++ "-" ++ ver ++ ext

/-- Embeds get_target_filename of build_prebuilt.py (lines 24-35): the raw
values of platform.system() and platform.machine() are lower-cased and the
fingerprint is rendered into the target filename. -/
def get_target_filename (system machine : String) (major minor : Nat) : String :=
  renderFingerprint (pyLower system) (pyLower machine) major minor

/-- Embeds the filename construction in BuildExt._use_prebuilt_binary
(setup.py lines 208-213): same lower-casing and the same format string,
except that the extension is hard-coded to .so on every platform. -/
def orchestratorBinaryName (system machine : String) (major minor : Nat) : String :=
  let s := pyLower system
  let m := pyLower machine
  let ver := Nat.repr major ++ "." ++ Nat.repr minor
  "hicstraw." ++ s ++ "." ++ m ++ ".cp" ++ ver ++ "-" ++ ver ++ ".so"

/-- Follows the spec words of section 6 (Filesystem layout): the filename
scheme <module-name>.<os>.<arch>.<runtime-major>.<runtime-minor>-<runtime-major>.<runtime-minor><ext>,
written for comparison with the filename the source code actually builds. -/
def specSchemeFilename (moduleName os arch : String) (major minor : Nat)
    (ext : String) : String :=
  moduleName ++ "." ++ os ++ "." ++ arch ++ "." ++ Nat.repr major ++ "."
    ++ Nat.repr minor ++ "-" ++ Nat.repr major ++ "." ++ Nat.repr minor ++ ext

/-- The amended scheme: identical to specSchemeFilename except for the
literal cp preceding the first runtime-major occurrence, which is what the
source code emits. -/
def specSchemeFilenameCp (moduleName os arch : String) (major minor : Nat)
    (ext : String) : String :=
  moduleName ++ "." ++ os ++ "." ++ arch ++ ".cp" ++ Nat.repr major ++ "."
    ++ Nat.repr minor ++ "-" ++ Nat.repr major ++ "." ++ Nat.repr minor ++ ext

/-! ### Flag selection (setup.py has_flag / cpp_flag) -/

/-- The loop of cpp_flag (setup.py lines 79-80): walk the candidate list in
order and return the first flag accepted by the probe. The probe argument
abstracts has_flag, which runs a disposable compile of a trivial
translation unit with the candidate flag. -/
def firstSupported (probe : String → Bool) : List String → Option String
  | [] => none
  | f :: rest => if probe f then some f else firstSupported probe rest

/-- The candidate list of cpp_flag (setup.py line 77), newest first. -/
def cppCandidateFlags : List String := ["-std=c++14", "-std=c++11"]

/-- The RuntimeError text of cpp_flag (setup.py lines 82-83). -/
def unsupportedMsg : String :=
  "Unsupported compiler -- at least C++11 support is needed!"

/-- Embeds cpp_flag (setup.py lines 72-83): first supported candidate, or
the unsupported-toolchain error when the loop falls through. -/
def cpp_flag (probe : String → Bool) : Except String String :=
  match firstSupported probe cppCandidateFlags with
  | some f => Except.ok f
  | none => Except.error unsupportedMsg

/-! ### Link-strategy probing (setup.py _build_extensions_regular, unix branch) -/

/-- Environment of one run of the unix link probing: the outcome of the
static compile-and-link trial and of the dynamic one. none means the trial
would succeed; some e means it raises with message e. -/
structure LinkTrialEnv where
  staticErr : Option String
  dynamicErr : Option String

/-- link_opts set by a successful static trial (setup.py line 165). -/
def staticLinkOpts : List String :=
  ["-DCURL_STATICLIB", "-DZ_STATICLIB", "-lcurl", "-lz"]

/-- link_opts set by a successful dynamic trial (setup.py line 174). -/
def dynamicLinkOpts : List String := ["-lcurl", "-lz"]

/-- The exception text raised when both trials fail (setup.py lines 177, 180). -/
def linkFailureMsg : String := "Failed to link with libcurl and libz"

/-- Result of the link-strategy stage: which trials ran, in order; the
warnings emitted; and either the chosen link_opts or the exception text. -/
structure LinkStageResult where
  trialsRun : List String
  warnings : List String
  outcome : Except String (List String)

/-- Embeds the unix branch of BuildExt._build_extensions_regular
(setup.py lines 148-188). The static trial runs first; only on its failure
does the dynamic trial run; when both fail the inner exception is caught by
the outer handler, which logs it as a compilation-test failure and
re-raises with the same text. -/
def linkStrategyStage (env : LinkTrialEnv) : LinkStageResult :=
  match env.staticErr with
  | none => ⟨["static"], [], Except.ok staticLinkOpts⟩
  | some es =>
    match env.dynamicErr with
    | none =>
        ⟨["static", "dynamic"], ["Static linking failed: " ++ es],
         Except.ok dynamicLinkOpts⟩
    | some ed =>
        ⟨["static", "dynamic"],
         ["Static linking failed: " ++ es, "Dynamic linking failed: " ++ ed,
          "Compilation test failed: " ++ linkFailureMsg],
         Except.error linkFailureMsg⟩

/-! ### Consent gate (setup.py build_extensions lines 124-133) -/

/-- What the call to input() produced: a reply string, end-of-file, or an
interrupt signal. -/
inductive ConsentInput where
  | answer (reply : String)
  | eof
  | interrupt

/-- The decline test at setup.py lines 126-127: the raw reply is
lower-cased and compared against the two literals n and no. -/
def consentDeclines (reply : String) : Bool :=
  let response := pyLower reply
  response == "n" || response == "no"

/-- Warning emitted when the user declines (setup.py line 128). -/
def userDeclinedMsg : String := "hic-straw: User chose not to use pre-built binary"

/-- Warning emitted on EOFError or KeyboardInterrupt (setup.py line 132). -/
def nonInteractiveMsg : String :=
  "hic-straw: Non-interactive environment detected, defaulting to Yes"

/-- Embeds the consent block (setup.py lines 124-132): a reply declines
exactly when its lower-casing is n or no; EOFError and KeyboardInterrupt
are caught and treated as consent. Returns whether consent is granted and
the warnings emitted by the block. -/
def consentStep : ConsentInput → Bool × List String
  | ConsentInput.answer reply =>
      if consentDeclines reply then (false, [userDeclinedMsg]) else (true, [])
  | ConsentInput.eof => (true, [nonInteractiveMsg])
  | ConsentInput.interrupt => (true, [nonInteractiveMsg])

/-! ### Prebuilt resolution (setup.py _use_prebuilt_binary) -/

/-- Environment of _use_prebuilt_binary: the raw platform values, the
runtime version, the filenames present in the prebuilt directory, and the
build_lib destination directory. -/
structure PrebuiltEnv where
  system : String
  machine : String
  major : Nat
  minor : Nat
  repoFiles : List String
  buildLib : String

/-- The exception text of the not-found branch (setup.py lines 217-220). -/
def notFoundMsg (env : PrebuiltEnv) : String :=
  "Compilation failed and no pre-built binary found for your platform ("
    ++ pyLower env.system ++ " " ++ pyLower env.machine ++ " Python "
    ++ Nat.repr env.major ++ "." ++ Nat.repr env.minor ++ ")"

/-- Result of a successful prebuilt installation: warnings emitted and the
copy operations performed, as source-destination pairs. -/
structure PrebuiltResult where
  warnings : List String
  copies : List (String × String)

/-- Embeds BuildExt._use_prebuilt_binary (setup.py lines 201-228): build
the lookup filename, fail when it is absent from the prebuilt directory,
otherwise copy it into build_lib under its own basename and log it. -/
def use_prebuilt_binary (env : PrebuiltEnv) : Except String PrebuiltResult :=
  let binaryName := orchestratorBinaryName env.system env.machine env.major env.minor
  let prebuiltPath := "prebuilt/" ++ binaryName
  if binaryName ∈ env.repoFiles then
    Except.ok ⟨["Using pre-built binary: " ++ prebuiltPath],
               [(prebuiltPath, env.buildLib ++ "/" ++ binaryName)]⟩
  else
    Except.error (notFoundMsg env)

/-! ### The build_extensions pipeline (setup.py lines 103-142) -/

/-- Warning emitted before the source build (setup.py line 105). -/
def attemptMsg : String := "hic-straw: Attempting to build from source..."

/-- Warning emitted after a successful source build (setup.py line 107). -/
def builtMsg : String := "hic-straw: Successfully built from source"

/-- The remediation diagnostic emitted when the source build fails
(setup.py lines 109-119), listing the missing development packages and the
per-distribution install commands. -/
def remediationMsg : String :=
  "hic-straw: Build from source failed!\nMissing required packages:\n  - libcurl4-openssl-dev (curl development package)\n  - zlib1g-dev (zlib development package)\n\nInstall commands:\n  Ubuntu/Debian: sudo apt-get install libcurl4-openssl-dev zlib1g-dev\n  RHEL/CentOS:  sudo yum install libcurl-devel zlib-devel\n  macOS:        brew install curl zlib\n\nTrying pre-built binary..."

/-- Warning emitted after a successful prebuilt install (setup.py line 136). -/
def prebuiltSuccessMsg : String :=
  "hic-straw: Successfully installed using pre-built binary"

/-- Second warning after a successful prebuilt install (setup.py line 137). -/
def prebuiltNoteMsg : String :=
  "hic-straw: Note: Using pre-built binary because build from source failed"

/-- The error diagnostic of the no-prebuilt branch (setup.py lines 139-140). -/
def noPrebuiltErrMsg : String :=
  "hic-straw ERROR: No pre-built binary available!\nPlease install the required development packages listed above and try again."

/-- Reason the pipeline ends in a failure: the exception that escapes
build_extensions. -/
inductive FailReason where
  | userDeclined
  | noPrebuilt (msg : String)
  deriving DecidableEq

/-- Terminal outcome of one run of build_extensions. -/
inductive PipeOutcome where
  | installedFromSource
  | installedPrebuilt
  | failed (r : FailReason)
  deriving DecidableEq

/-- Trace of one run of build_extensions: warnings in emission order, the
outcome, the file copies performed, and whether _use_prebuilt_binary was
invoked at all. -/
structure PipelineRun where
  warnings : List String
  outcome : PipeOutcome
  copies : List (String × String)
  prebuiltResolving : Bool
  deriving DecidableEq

/-- Embeds BuildExt.build_extensions (setup.py lines 103-142). sourceBuild
is the outcome of _build_extensions_regular: none means it succeeded, some
e means it raised with message e. On failure the remediation diagnostic is
emitted, the consent block runs; a decline re-raises immediately (nothing
is copied and the prebuilt lookup never runs); otherwise
_use_prebuilt_binary runs, and its failure is logged and re-raised. -/
def build_extensions (sourceBuild : Option String) (consent : ConsentInput)
    (env : PrebuiltEnv) : PipelineRun :=
  match sourceBuild with
  | none => ⟨[attemptMsg, builtMsg], PipeOutcome.installedFromSource, [], false⟩
  | some _ =>
    let w0 := [attemptMsg, remediationMsg]
    let c := consentStep consent
    if c.fst = false then
      ⟨w0 ++ c.snd, PipeOutcome.failed FailReason.userDeclined, [], false⟩
    else
      match use_prebuilt_binary env with
      | Except.ok r =>
          ⟨w0 ++ c.snd ++ r.warnings ++ [prebuiltSuccessMsg, prebuiltNoteMsg],
           PipeOutcome.installedPrebuilt, r.copies, true⟩
      | Except.error e =>
          ⟨w0 ++ c.snd ++ [noPrebuiltErrMsg],
           PipeOutcome.failed (FailReason.noPrebuilt e), [], true⟩

/-- Modelled from the spec: the conversion of the pipeline outcome into the
process exit status lives in setuptools, outside this repository; per the
spec (section 6) the exit code is 0 on Installed and non-zero on Failed,
an uncaught exception from build_extensions failing the process. -/
def exitCode : PipeOutcome → Nat
  | PipeOutcome.failed _ => 1
  | _ => 0

/-! ### Producer glob search (build_prebuilt.py build_extension) -/

/-- One entry of the recursive directory listing: the directory part of
the path and the file name. -/
structure FsEntry where
  dir : String
  name : String
  deriving DecidableEq

/-- The extension suffix chosen by build_extension (build_prebuilt.py
lines 14-16): .pyd when platform.system() is the literal Windows,
.so otherwise. -/
def extSuffixFor (system : String) : String :=
  if system = "Windows" then ".pyd" else ".so"

/-- Whether a file name matches the glob pattern hicstraw*<ext> used at
build_prebuilt.py line 19: the name starts with the literal hicstraw, ends
with the suffix, and is long enough that the two parts do not overlap, so
the star matches the run of characters in between. -/
def matchesHicstrawGlob (ext : String) (name : String) : Bool :=
  "hicstraw".data.isPrefixOf name.data && ext.data.isSuffixOf name.data
    && decide (8 + ext.data.length ≤ name.data.length)

/-- Embeds the search of build_extension (build_prebuilt.py lines 18-22):
walk the recursive listing of the current directory in traversal order and
return the first entry whose name matches the glob, or the
FileNotFoundError text when none does. -/
def build_extension (system : String) (tree : List FsEntry) : Except String FsEntry :=
  match tree.find? (fun p => matchesHicstrawGlob (extSuffixFor system) p.name) with
  | some f => Except.ok f
  | none => Except.error "Built extension not found"

/-! ### Proof-support definitions -/

/-- Characters of the decimal representation of a natural number, phrased
through Nat.digits for proof purposes; shown below to equal the data of
Nat.repr, which is what the f-strings of both scripts interpolate. -/
def reprChars (n : Nat) : List Char :=
  if n = 0 then ['0'] else ((Nat.digits 10 n).map Nat.digitChar).reverse

/-- The seven dot-separated chunks of the rendered artifact filename, used
to invert the rendering when the os and arch fields are dot-free. -/
def renderChunks (os arch : String) (major minor : Nat) : List (List Char) :=
  [['h','i','c','s','t','r','a','w'],
   os.data, arch.data,
   'c' :: 'p' :: (Nat.repr major).data,
   (Nat.repr minor).data ++ '-' :: (Nat.repr major).data,
   (Nat.repr minor).data,
   if os = "windows" then ['p','y','d'] else ['s','o']]

/-- The scenario environment of testable property seven of the spec: the
fingerprint (windows, amd64, 3.11) with an empty prebuilt directory. -/
def windowsEnvNoRepo : PrebuiltEnv :=
  ⟨"Windows", "AMD64", 3, 11, [], "build/lib"⟩


/-! ## Helper lemmas

Characterization of the decimal rendering Nat.repr used by the f-strings,
and inversion of the filename rendering on dot-free fields. -/

lemma toDigitsCore_eq_reprChars :
    ∀ (f n : Nat) (ds : List Char), n < f →
      Nat.toDigitsCore 10 f n ds = reprChars n ++ ds := by
  intro f
  induction f with
  | zero => intro n ds h; exact absurd h (Nat.not_lt_zero n)
  | succ f ih =>
    intro n ds h
    by_cases h0 : n / 10 = 0
    · have hn10 : n < 10 := by omega
      unfold Nat.toDigitsCore
      simp only [h0, if_true]
      by_cases hz : n = 0
      · subst hz; simp [reprChars]; decide
      · have : Nat.digits 10 n = [n] := Nat.digits_of_lt 10 n hz hn10
        have hmod : n % 10 = n := Nat.mod_eq_of_lt hn10
        simp [reprChars, hz, this, hmod]
    · have hnz : n ≠ 0 := by
        intro hz; subst hz; simp at h0
      have hlt : n / 10 < f := by
        have h1 : n / 10 < n := Nat.div_lt_self (Nat.pos_of_ne_zero hnz) (by omega)
        omega
      unfold Nat.toDigitsCore
      simp only [h0, if_neg]
      rw [ih (n / 10) (Nat.digitChar (n % 10) :: ds) hlt]
      have hd : Nat.digits 10 n = n % 10 :: Nat.digits 10 (n / 10) :=
        Nat.digits_def' (by omega) (Nat.pos_of_ne_zero hnz)
      have : reprChars n = reprChars (n / 10) ++ [Nat.digitChar (n % 10)] := by
        simp [reprChars, hnz, h0, hd]
      rw [this, List.append_assoc]
      rfl

lemma repr_data_eq (n : Nat) : (Nat.repr n).data = reprChars n := by
  show (List.asString (Nat.toDigitsCore 10 (n + 1) n [])).data = reprChars n
  rw [toDigitsCore_eq_reprChars (n + 1) n [] (Nat.lt_succ_self n)]
  simp [List.asString]

lemma digitChar_mem_digits : ∀ d < 10,
    Nat.digitChar d ∈ (['0','1','2','3','4','5','6','7','8','9'] : List Char) := by
  decide

lemma reprChars_all_digits (n : Nat) :
    ∀ c ∈ reprChars n, c ∈ (['0','1','2','3','4','5','6','7','8','9'] : List Char) := by
  intro c hc
  unfold reprChars at hc
  by_cases hz : n = 0
  · simp [hz] at hc; simp [hc]
  · simp only [hz, if_neg, if_false, List.mem_reverse, List.mem_map] at hc
    obtain ⟨d, hd, rfl⟩ := hc
    exact digitChar_mem_digits d (Nat.digits_lt_base (by omega) hd)

lemma dot_not_in_repr (n : Nat) : '.' ∉ (Nat.repr n).data := by
  rw [repr_data_eq]
  intro h
  have := reprChars_all_digits n '.' h
  simp at this

lemma digitChar_inj : ∀ a < 10, ∀ b < 10,
    Nat.digitChar a = Nat.digitChar b → a = b := by
  decide

lemma map_digitChar_inj : ∀ (l₁ l₂ : List Nat),
    (∀ d ∈ l₁, d < 10) → (∀ d ∈ l₂, d < 10) →
    l₁.map Nat.digitChar = l₂.map Nat.digitChar → l₁ = l₂ := by
  intro l₁
  induction l₁ with
  | nil => intro l₂ _ _ h; cases l₂ <;> simp_all
  | cons a l ih =>
    intro l₂ h1 h2 h
    cases l₂ with
    | nil => simp at h
    | cons b m =>
      simp only [List.map_cons, List.cons.injEq] at h
      have ha := h1 a (List.mem_cons_self a l)
      have hb := h2 b (List.mem_cons_self b m)
      have hab := digitChar_inj a ha b hb h.1
      have := ih m (fun d hd => h1 d (List.mem_cons_of_mem a hd))
        (fun d hd => h2 d (List.mem_cons_of_mem b hd)) h.2
      rw [hab, this]

lemma reprChars_inj (m n : Nat) (h : reprChars m = reprChars n) : m = n := by
  unfold reprChars at h
  by_cases hm : m = 0 <;> by_cases hn : n = 0
  · omega
  · exfalso
    simp only [hm, if_true, hn, if_neg, if_false] at h
    have h' := congrArg List.reverse h
    simp only [List.reverse_reverse] at h'
    have : Nat.digits 10 n = [0] := by
      cases hd : Nat.digits 10 n with
      | nil => rw [hd] at h'; simp at h'
      | cons d rest =>
        rw [hd] at h'
        cases rest with
        | nil =>
          simp only [List.map_cons, List.map_nil, List.reverse_cons, List.reverse_nil,
            List.nil_append, List.cons.injEq] at h'
          have hd10 : d < 10 := Nat.digits_lt_base (by omega) (by rw [hd]; simp)
          have : d = 0 := digitChar_inj d hd10 0 (by omega) (by
            have := h'.1; exact this.symm)
          simp [this]
        | cons d2 rest2 => simp at h'
    have h0 := Nat.ofDigits_digits 10 n
    rw [‹Nat.digits 10 n = [0]›] at h0
    simp [Nat.ofDigits] at h0
    omega
  · exfalso
    simp only [hm, hn, if_true, if_neg, if_false] at h
    have h' := congrArg List.reverse h
    simp only [List.reverse_reverse] at h'
    have : Nat.digits 10 m = [0] := by
      cases hd : Nat.digits 10 m with
      | nil => rw [hd] at h'; simp at h'
      | cons d rest =>
        rw [hd] at h'
        cases rest with
        | nil =>
          simp only [List.map_cons, List.map_nil, List.reverse_cons, List.reverse_nil,
            List.nil_append, List.cons.injEq] at h'
          have hd10 : d < 10 := Nat.digits_lt_base (by omega) (by rw [hd]; simp)
          have : d = 0 := digitChar_inj d hd10 0 (by omega) h'.1
          simp [this]
        | cons d2 rest2 => simp at h'
    have h0 := Nat.ofDigits_digits 10 m
    rw [‹Nat.digits 10 m = [0]›] at h0
    simp [Nat.ofDigits] at h0
    omega
  · simp only [hm, hn, if_neg, if_false] at h
    have h' := congrArg List.reverse h
    simp only [List.reverse_reverse] at h'
    have := map_digitChar_inj (Nat.digits 10 m) (Nat.digits 10 n)
      (fun d hd => Nat.digits_lt_base (by omega) hd)
      (fun d hd => Nat.digits_lt_base (by omega) hd) h'
    calc m = Nat.ofDigits 10 (Nat.digits 10 m) := (Nat.ofDigits_digits 10 m).symm
    _ = Nat.ofDigits 10 (Nat.digits 10 n) := by rw [this]
    _ = n := Nat.ofDigits_digits 10 n

lemma nat_repr_inj (m n : Nat) (h : Nat.repr m = Nat.repr n) : m = n := by
  apply reprChars_inj
  rw [← repr_data_eq, ← repr_data_eq, h]

lemma render_data_intercalate (os arch : String) (major minor : Nat) :
    (renderFingerprint os arch major minor).data =
      ['.'].intercalate (renderChunks os arch major minor) := by
  by_cases h : os = "windows" <;>
    simp [renderFingerprint, renderChunks, h, List.intercalate, List.intersperse,
      String.data_append]

lemma renderChunks_dot_free (os arch : String) (major minor : Nat)
    (ho : '.' ∉ os.data) (ha : '.' ∉ arch.data) :
    ∀ l ∈ renderChunks os arch major minor, '.' ∉ l := by
  intro l hl
  simp only [renderChunks, List.mem_cons, List.not_mem_nil, or_false] at hl
  rcases hl with rfl | rfl | rfl | rfl | rfl | rfl | h
  · decide
  · exact ho
  · exact ha
  · intro hc
    simp only [List.mem_cons] at hc
    rcases hc with hc | hc | hc
    · exact absurd hc (by decide)
    · exact absurd hc (by decide)
    · exact dot_not_in_repr major hc
  · intro hc
    rcases List.mem_append.mp hc with hc | hc
    · exact dot_not_in_repr minor hc
    · simp only [List.mem_cons] at hc
      rcases hc with hc | hc
      · exact absurd hc (by decide)
      · exact dot_not_in_repr major hc
  · exact dot_not_in_repr minor
  · subst h
    split <;> decide

lemma render_inj_on_dotfree (os1 arch1 : String) (maj1 min1 : Nat)
    (os2 arch2 : String) (maj2 min2 : Nat)
    (ho1 : '.' ∉ os1.data) (ha1 : '.' ∉ arch1.data)
    (ho2 : '.' ∉ os2.data) (ha2 : '.' ∉ arch2.data)
    (heq : renderFingerprint os1 arch1 maj1 min1 = renderFingerprint os2 arch2 maj2 min2) :
    os1 = os2 ∧ arch1 = arch2 ∧ maj1 = maj2 ∧ min1 = min2 := by
  have hdata := congrArg String.data heq
  rw [render_data_intercalate, render_data_intercalate] at hdata
  have hsplit := congrArg (fun l => l.splitOn '.') hdata
  simp only at hsplit
  rw [List.splitOn_intercalate _ '.'
        (renderChunks_dot_free os1 arch1 maj1 min1 ho1 ha1)
        (by simp [renderChunks]),
      List.splitOn_intercalate _ '.'
        (renderChunks_dot_free os2 arch2 maj2 min2 ho2 ha2)
        (by simp [renderChunks])] at hsplit
  simp only [renderChunks, List.cons.injEq] at hsplit
  obtain ⟨-, h2, h3, h4, -, h6, -⟩ := hsplit
  refine ⟨String.ext h2, String.ext h3, ?_, ?_⟩
  · exact nat_repr_inj _ _ (String.ext h4.2.2)
  · exact nat_repr_inj _ _ (String.ext h6)


lemma glob_iff_decomposition (ext name : String) :
    matchesHicstrawGlob ext name = true
      ↔ ∃ mid : String, name = "hicstraw" ++ mid ++ ext := by
  constructor
  · intro h
    simp only [matchesHicstrawGlob, Bool.and_eq_true, decide_eq_true_eq,
      List.isPrefixOf_iff_prefix, List.isSuffixOf_iff_suffix] at h
    obtain ⟨⟨⟨t, ht⟩, ⟨s, hs⟩⟩, hlen⟩ := h
    have hslen : 8 ≤ s.length := by
      have := congrArg List.length hs
      simp only [List.length_append] at this
      omega
    have htake : s.take 8 = "hicstraw".data := by
      have h1 : name.data.take 8 = "hicstraw".data := by
        rw [← ht]
        exact List.take_append_of_le_length (by decide) |>.trans (by decide)
      have h2 : name.data.take 8 = s.take 8 := by
        rw [← hs]
        exact List.take_append_of_le_length hslen
      rw [← h1, h2]
    refine ⟨⟨s.drop 8⟩, String.ext ?_⟩
    show name.data = ("hicstraw" ++ String.mk (s.drop 8) ++ ext).data
    simp only [String.data_append]
    show name.data = "hicstraw".data ++ s.drop 8 ++ ext.data
    rw [← hs, ← htake, List.take_append_drop]
  · rintro ⟨mid, rfl⟩
    simp only [matchesHicstrawGlob, Bool.and_eq_true, decide_eq_true_eq,
      List.isPrefixOf_iff_prefix, List.isSuffixOf_iff_suffix, String.data_append]
    refine ⟨⟨?_, ?_⟩, ?_⟩
    · rw [List.append_assoc]
      exact List.prefix_append _ _
    · exact List.suffix_append _ _
    · simp only [List.length_append]
      have h8 : (['h','i','c','s','t','r','a','w'] : List Char).length = 8 := rfl
      omega

lemma first_match_selected (system : String) (pre : List FsEntry) (p : FsEntry)
    (post : List FsEntry)
    (hpre : ∀ q ∈ pre, matchesHicstrawGlob (extSuffixFor system) q.name = false)
    (hp : matchesHicstrawGlob (extSuffixFor system) p.name = true) :
    build_extension system (pre ++ p :: post) = Except.ok p := by
  have hf : (pre ++ p :: post).find?
      (fun q => matchesHicstrawGlob (extSuffixFor system) q.name) = some p := by
    induction pre with
    | nil => simp [List.find?_cons_of_pos, hp]
    | cons q rest ih =>
      have hq := hpre q (List.mem_cons_self q rest)
      rw [List.cons_append, List.find?_cons_of_neg _ (by simp [hq])]
      exact ih (fun r hr => hpre r (List.mem_cons_of_mem q hr))
  simp [build_extension, hf]


/-! ## Claim theorems -/

/-- C1: the claim states that on every platform the filename the
Orchestrator uses to look up a prebuilt artifact equals the filename the
Producer uses to store one. On the windows platform the two differ: the
Producer stores a .pyd file (build_prebuilt.py lines 30-33) while the
Orchestrator hard-codes the .so suffix (setup.py line 213); off windows
they agree. Evaluation at the failing fingerprint (windows, amd64,
runtime 3.11) and, for contrast, at (linux, x86_64, 3.10). -/
theorem orchestrator_lookup_ne_producer_store_on_windows :
    orchestratorBinaryName "Windows" "AMD64" 3 11
      ≠ get_target_filename "Windows" "AMD64" 3 11
    ∧ orchestratorBinaryName "Windows" "AMD64" 3 11
      = "hicstraw.windows.amd64.cp3.11-3.11.so"
    ∧ get_target_filename "Windows" "AMD64" 3 11
      = "hicstraw.windows.amd64.cp3.11-3.11.pyd"
    ∧ orchestratorBinaryName "Linux" "x86_64" 3 10
      = get_target_filename "Linux" "x86_64" 3 10 :=
  ⟨by decide, by decide, by decide, by decide⟩

/-- C2: during link-strategy probing on a unix toolchain the static trial
with the static-linking preprocessor defines runs first; the dynamic trial
runs if and only if the static trial fails; and when both fail the stage
raises the link failure after emitting the diagnostics of both trials. -/
theorem link_probe_static_first_dynamic_on_failure (env : LinkTrialEnv) :
    (linkStrategyStage env).trialsRun.head? = some "static"
    ∧ ("dynamic" ∈ (linkStrategyStage env).trialsRun ↔ env.staticErr ≠ none)
    ∧ (env.staticErr = none →
        (linkStrategyStage env).outcome = Except.ok staticLinkOpts
        ∧ (linkStrategyStage env).trialsRun = ["static"])
    ∧ (∀ es ed, env.staticErr = some es → env.dynamicErr = some ed →
        (linkStrategyStage env).outcome = Except.error linkFailureMsg
        ∧ ("Static linking failed: " ++ es) ∈ (linkStrategyStage env).warnings
        ∧ ("Dynamic linking failed: " ++ ed) ∈ (linkStrategyStage env).warnings) := by
  obtain ⟨se, de⟩ := env
  cases se <;> cases de <;> simp [linkStrategyStage]

/-- Witness for C2: both trials fail with concrete diagnostics. -/
theorem link_probe_static_first_dynamic_on_failure_witness :
    (linkStrategyStage ⟨some "no static curl", some "no curl at all"⟩).outcome
      = Except.error linkFailureMsg
    ∧ ("Static linking failed: " ++ "no static curl")
        ∈ (linkStrategyStage ⟨some "no static curl", some "no curl at all"⟩).warnings
    ∧ ("Dynamic linking failed: " ++ "no curl at all")
        ∈ (linkStrategyStage ⟨some "no static curl", some "no curl at all"⟩).warnings :=
  (link_probe_static_first_dynamic_on_failure ⟨some "no static curl", some "no curl at all"⟩).2.2.2
    "no static curl" "no curl at all" rfl rfl

/-- C3: the flag-selection loop returns the first candidate the probe
accepts, independently of later candidates, and cpp_flag fails with the
unsupported-toolchain error when no candidate is supported. -/
theorem cpp_flag_selects_first_supported (probe : String → Bool) :
    (∀ f rest, probe f = true → firstSupported probe (f :: rest) = some f)
    ∧ (∀ flags, firstSupported probe flags = flags.find? probe)
    ∧ (∀ flags, (∀ f ∈ flags, probe f = false) → firstSupported probe flags = none)
    ∧ ((∀ f ∈ cppCandidateFlags, probe f = false) →
        cpp_flag probe = Except.error unsupportedMsg) := by
  have hfind : ∀ flags, firstSupported probe flags = flags.find? probe := by
    intro flags
    induction flags with
    | nil => rfl
    | cons f rest ih =>
      by_cases h : probe f <;> simp [firstSupported, List.find?, h, ih]
  have hnone : ∀ flags, (∀ f ∈ flags, probe f = false) →
      firstSupported probe flags = none := by
    intro flags h
    rw [hfind]
    exact List.find?_eq_none.mpr (by intro x hx; simp [h x hx])
  refine ⟨?_, hfind, hnone, ?_⟩
  · intro f rest h
    simp [firstSupported, h]
  · intro h
    have := hnone cppCandidateFlags h
    simp [cpp_flag, this]

/-- Witness for C3: with every candidate supported the first one wins; with
none supported cpp_flag fails with the unsupported-toolchain error. -/
theorem cpp_flag_selects_first_supported_witness :
    firstSupported (fun _ => true) ("-std=c++14" :: ["-std=c++11"]) = some "-std=c++14"
    ∧ cpp_flag (fun _ => false) = Except.error unsupportedMsg :=
  ⟨(cpp_flag_selects_first_supported (fun _ => true)).1 "-std=c++14" ["-std=c++11"] rfl,
   (cpp_flag_selects_first_supported (fun _ => false)).2.2.2 (by decide)⟩

/-- C9: a reply to the consent prompt declines exactly when its
lower-casing is n or no; every other reply, including unrecognized strings
such as maybe or q, is treated as consent granted. -/
theorem consent_declines_iff_n_or_no (reply : String) :
    ((consentStep (ConsentInput.answer reply)).fst = false
      ↔ (pyLower reply = "n" ∨ pyLower reply = "no"))
    ∧ ((consentStep (ConsentInput.answer reply)).fst = true
      ↔ ¬(pyLower reply = "n" ∨ pyLower reply = "no")) := by
  by_cases h : pyLower reply = "n" <;> by_cases h2 : pyLower reply = "no" <;>
    simp [consentStep, consentDeclines, h, h2]

/-- Witness for C9: maybe and q grant, upper-case N declines. -/
theorem consent_declines_iff_n_or_no_witness :
    (consentStep (ConsentInput.answer "maybe")).fst = true
    ∧ (consentStep (ConsentInput.answer "q")).fst = true
    ∧ (consentStep (ConsentInput.answer "N")).fst = false :=
  ⟨(consent_declines_iff_n_or_no "maybe").2.mpr (by decide),
   (consent_declines_iff_n_or_no "q").2.mpr (by decide),
   (consent_declines_iff_n_or_no "N").1.mpr (Or.inl (by decide))⟩


/-- C4: when the source build fails and the consent channel raises
end-of-file or an interrupt, the decision defaults to granted, the
non-interactive notice is emitted, and the pipeline proceeds to prebuilt
resolution instead of failing at the consent gate. -/
theorem noninteractive_consent_defaults_granted (e : String) (consent : ConsentInput)
    (env : PrebuiltEnv)
    (h : consent = ConsentInput.eof ∨ consent = ConsentInput.interrupt) :
    (consentStep consent).fst = true
    ∧ (build_extensions (some e) consent env).prebuiltResolving = true
    ∧ (build_extensions (some e) consent env).outcome
        ≠ PipeOutcome.failed FailReason.userDeclined
    ∧ nonInteractiveMsg ∈ (build_extensions (some e) consent env).warnings := by
  rcases h with h | h <;> subst h <;>
    cases hu : use_prebuilt_binary env <;>
      simp [build_extensions, consentStep, hu]

/-- Witness for C4: end-of-file on a linux environment with an empty
prebuilt directory. -/
theorem noninteractive_consent_defaults_granted_witness :
    (consentStep ConsentInput.eof).fst = true
    ∧ (build_extensions (some "boom") ConsentInput.eof
        ⟨"Linux", "x86_64", 3, 10, [], "build/lib"⟩).prebuiltResolving = true
    ∧ (build_extensions (some "boom") ConsentInput.eof
        ⟨"Linux", "x86_64", 3, 10, [], "build/lib"⟩).outcome
        ≠ PipeOutcome.failed FailReason.userDeclined
    ∧ nonInteractiveMsg ∈ (build_extensions (some "boom") ConsentInput.eof
        ⟨"Linux", "x86_64", 3, 10, [], "build/lib"⟩).warnings :=
  noninteractive_consent_defaults_granted "boom" ConsentInput.eof
    ⟨"Linux", "x86_64", 3, 10, [], "build/lib"⟩ (Or.inl rfl)

/-- C5: when the source build fails and the user declines at the consent
prompt, the run ends failed with the user-declined reason, nothing is
copied to the build output location, and prebuilt resolution never runs. -/
theorem user_decline_ends_failed_nothing_copied (e reply : String) (env : PrebuiltEnv)
    (h : pyLower reply = "n" ∨ pyLower reply = "no") :
    (build_extensions (some e) (ConsentInput.answer reply) env).outcome
      = PipeOutcome.failed FailReason.userDeclined
    ∧ (build_extensions (some e) (ConsentInput.answer reply) env).copies = []
    ∧ (build_extensions (some e) (ConsentInput.answer reply) env).prebuiltResolving = false
    ∧ userDeclinedMsg ∈ (build_extensions (some e) (ConsentInput.answer reply) env).warnings := by
  have hd : consentDeclines reply = true := by
    rcases h with h | h <;> simp [consentDeclines, h]
  simp [build_extensions, consentStep, hd]

/-- Witness for C5: the reply no on a linux environment whose prebuilt
directory does hold a matching artifact, which is still not used. -/
theorem user_decline_ends_failed_nothing_copied_witness :
    (build_extensions (some "boom") (ConsentInput.answer "no")
      ⟨"Linux", "x86_64", 3, 10, ["hicstraw.linux.x86_64.cp3.10-3.10.so"], "build/lib"⟩).outcome
      = PipeOutcome.failed FailReason.userDeclined
    ∧ (build_extensions (some "boom") (ConsentInput.answer "no")
      ⟨"Linux", "x86_64", 3, 10, ["hicstraw.linux.x86_64.cp3.10-3.10.so"], "build/lib"⟩).copies = []
    ∧ (build_extensions (some "boom") (ConsentInput.answer "no")
      ⟨"Linux", "x86_64", 3, 10, ["hicstraw.linux.x86_64.cp3.10-3.10.so"], "build/lib"⟩).prebuiltResolving = false
    ∧ userDeclinedMsg ∈ (build_extensions (some "boom") (ConsentInput.answer "no")
      ⟨"Linux", "x86_64", 3, 10, ["hicstraw.linux.x86_64.cp3.10-3.10.so"], "build/lib"⟩).warnings :=
  user_decline_ends_failed_nothing_copied "boom" "no"
    ⟨"Linux", "x86_64", 3, 10, ["hicstraw.linux.x86_64.cp3.10-3.10.so"], "build/lib"⟩
    (Or.inr (by decide))

/-- Counterexample for C8: in the scenario of the claim, fingerprint
(windows, amd64, 3.11) with no matching repository entry, the run emits
the remediation diagnostic exactly once, when the source build fails;
the not-found branch emits only the distinct no-prebuilt error diagnostic,
so the original remediation diagnostic is not re-emitted. -/
theorem remediation_not_reemitted_on_no_prebuilt :
    (build_extensions (some "compile error") (ConsentInput.answer "")
        windowsEnvNoRepo).warnings
      = [attemptMsg, remediationMsg, noPrebuiltErrMsg]
    ∧ ((build_extensions (some "compile error") (ConsentInput.answer "")
        windowsEnvNoRepo).warnings.count remediationMsg = 1)
    ∧ noPrebuiltErrMsg ≠ remediationMsg
    ∧ (build_extensions (some "compile error") (ConsentInput.answer "")
        windowsEnvNoRepo).outcome
      = PipeOutcome.failed (FailReason.noPrebuilt (notFoundMsg windowsEnvNoRepo))
    ∧ exitCode (build_extensions (some "compile error") (ConsentInput.answer "")
        windowsEnvNoRepo).outcome = 1 :=
  ⟨by decide, by decide, by decide, by decide, by decide⟩

/-- C8 as amended: with consent granted and no repository entry matching
the platform fingerprint, the pipeline ends failed with the no-prebuilt
reason carrying the not-found text, the distinct no-prebuilt error
diagnostic pointing back at the earlier instructions is emitted, the
process exit status is non-zero, and the remediation diagnostic appears
exactly once in the run, not re-emitted. -/
theorem no_prebuilt_ends_failed_nonzero (e : String) (consent : ConsentInput)
    (env : PrebuiltEnv) (hc : (consentStep consent).fst = true)
    (hn : orchestratorBinaryName env.system env.machine env.major env.minor
      ∉ env.repoFiles) :
    (build_extensions (some e) consent env).outcome
      = PipeOutcome.failed (FailReason.noPrebuilt (notFoundMsg env))
    ∧ noPrebuiltErrMsg ∈ (build_extensions (some e) consent env).warnings
    ∧ exitCode (build_extensions (some e) consent env).outcome ≠ 0
    ∧ (build_extensions (some e) consent env).warnings.count remediationMsg = 1 := by
  have hu : use_prebuilt_binary env = Except.error (notFoundMsg env) := by
    simp [use_prebuilt_binary, hn]
  cases consent with
  | answer reply =>
    by_cases hd : consentDeclines reply
    · simp [consentStep, hd] at hc
    · have hw : build_extensions (some e) (ConsentInput.answer reply) env =
          ⟨[attemptMsg, remediationMsg, noPrebuiltErrMsg],
           PipeOutcome.failed (FailReason.noPrebuilt (notFoundMsg env)), [], true⟩ := by
        simp [build_extensions, consentStep, hd, hu]
      rw [hw]
      refine ⟨rfl, ?_, by simp [exitCode], ?_⟩
      · show noPrebuiltErrMsg ∈ [attemptMsg, remediationMsg, noPrebuiltErrMsg]
        decide
      · show List.count remediationMsg [attemptMsg, remediationMsg, noPrebuiltErrMsg] = 1
        decide
  | eof =>
    have hw : build_extensions (some e) ConsentInput.eof env =
        ⟨[attemptMsg, remediationMsg, nonInteractiveMsg, noPrebuiltErrMsg],
         PipeOutcome.failed (FailReason.noPrebuilt (notFoundMsg env)), [], true⟩ := by
      simp [build_extensions, consentStep, hu]
    rw [hw]
    refine ⟨rfl, ?_, by simp [exitCode], ?_⟩
    · show noPrebuiltErrMsg ∈ [attemptMsg, remediationMsg, nonInteractiveMsg, noPrebuiltErrMsg]
      decide
    · show List.count remediationMsg
          [attemptMsg, remediationMsg, nonInteractiveMsg, noPrebuiltErrMsg] = 1
      decide
  | interrupt =>
    have hw : build_extensions (some e) ConsentInput.interrupt env =
        ⟨[attemptMsg, remediationMsg, nonInteractiveMsg, noPrebuiltErrMsg],
         PipeOutcome.failed (FailReason.noPrebuilt (notFoundMsg env)), [], true⟩ := by
      simp [build_extensions, consentStep, hu]
    rw [hw]
    refine ⟨rfl, ?_, by simp [exitCode], ?_⟩
    · show noPrebuiltErrMsg ∈ [attemptMsg, remediationMsg, nonInteractiveMsg, noPrebuiltErrMsg]
      decide
    · show List.count remediationMsg
          [attemptMsg, remediationMsg, nonInteractiveMsg, noPrebuiltErrMsg] = 1
      decide

/-- Witness for C8: end-of-file consent on the windows environment with
an empty prebuilt directory. -/
theorem no_prebuilt_ends_failed_nonzero_witness :
    (build_extensions (some "compile error") ConsentInput.eof windowsEnvNoRepo).outcome
      = PipeOutcome.failed (FailReason.noPrebuilt (notFoundMsg windowsEnvNoRepo))
    ∧ noPrebuiltErrMsg ∈ (build_extensions (some "compile error") ConsentInput.eof
        windowsEnvNoRepo).warnings
    ∧ exitCode (build_extensions (some "compile error") ConsentInput.eof
        windowsEnvNoRepo).outcome ≠ 0
    ∧ (build_extensions (some "compile error") ConsentInput.eof
        windowsEnvNoRepo).warnings.count remediationMsg = 1 :=
  no_prebuilt_ends_failed_nonzero "compile error" ConsentInput.eof windowsEnvNoRepo
    rfl (by decide)

/-- Counterexample for C7: at the platform (linux, x86_64, runtime 3.10)
the filename the Producer renders carries the literal cp before the first
runtime-major, so it differs from the scheme the claim states, which has
no cp. -/
theorem filename_scheme_missing_cp :
    get_target_filename "Linux" "x86_64" 3 10
      = "hicstraw.linux.x86_64.cp3.10-3.10.so"
    ∧ specSchemeFilename "hicstraw" "linux" "x86_64" 3 10 ".so"
      = "hicstraw.linux.x86_64.3.10-3.10.so"
    ∧ get_target_filename "Linux" "x86_64" 3 10
      ≠ specSchemeFilename "hicstraw" "linux" "x86_64" 3 10 ".so" :=
  ⟨by decide, by decide, by decide⟩

/-- C7 as amended: on every platform the Producer filename follows the
scheme with the literal cp inserted before the first runtime-major, os and
arch lower-cased and ext the native shared-library suffix (.pyd on
windows, .so elsewhere); the Orchestrator lookup follows the same scheme
with ext always .so. -/
theorem filename_follows_cp_scheme (system machine : String) (major minor : Nat) :
    get_target_filename system machine major minor
      = specSchemeFilenameCp "hicstraw" (pyLower system) (pyLower machine) major minor
          (if pyLower system = "windows" then ".pyd" else ".so")
    ∧ orchestratorBinaryName system machine major minor
      = specSchemeFilenameCp "hicstraw" (pyLower system) (pyLower machine) major minor ".so" := by
  constructor <;>
  · apply String.ext
    by_cases h : pyLower system = "windows" <;>
      simp [get_target_filename, renderFingerprint, orchestratorBinaryName,
        specSchemeFilenameCp, h, String.data_append]

/-- Counterexample for C6: two fingerprints that differ in both the os and
the arch field render to the same filename once a field contains a dot, so
the rendering is not injective on all distinct (os, arch, runtime)
triples. -/
theorem render_collides_on_dotted_fields :
    get_target_filename "a.b" "c" 3 10 = get_target_filename "a" "b.c" 3 10
    ∧ renderFingerprint "a.b" "c" 3 10 = renderFingerprint "a" "b.c" 3 10
    ∧ ("a.b" : String) ≠ "a"
    ∧ ("c" : String) ≠ "b.c" :=
  ⟨by decide, by decide, by decide, by decide⟩

/-- C6 as amended: the rendering is a pure function, so equal fingerprints
give identical filenames; and on fingerprints whose os and arch fields are
dot-free, as every real platform name is, distinct (os, arch, runtime)
triples give distinct filenames. -/
theorem render_pure_and_injective_on_dotfree (os1 arch1 : String) (maj1 min1 : Nat)
    (os2 arch2 : String) (maj2 min2 : Nat)
    (ho1 : '.' ∉ os1.data) (ha1 : '.' ∉ arch1.data)
    (ho2 : '.' ∉ os2.data) (ha2 : '.' ∉ arch2.data) :
    (os1 = os2 → arch1 = arch2 → maj1 = maj2 → min1 = min2 →
      renderFingerprint os1 arch1 maj1 min1 = renderFingerprint os2 arch2 maj2 min2)
    ∧ (renderFingerprint os1 arch1 maj1 min1 = renderFingerprint os2 arch2 maj2 min2 →
      os1 = os2 ∧ arch1 = arch2 ∧ maj1 = maj2 ∧ min1 = min2) := by
  constructor
  · intro h1 h2 h3 h4
    rw [h1, h2, h3, h4]
  · exact render_inj_on_dotfree os1 arch1 maj1 min1 os2 arch2 maj2 min2 ho1 ha1 ho2 ha2

/-- Witness for C6: two concrete distinct dot-free fingerprints render to
distinct filenames. -/
theorem render_pure_and_injective_on_dotfree_witness :
    renderFingerprint "linux" "x86_64" 3 10 ≠ renderFingerprint "darwin" "arm64" 3 12 :=
  fun h =>
    absurd ((render_pure_and_injective_on_dotfree "linux" "x86_64" 3 10 "darwin" "arm64" 3 12
      (by decide) (by decide) (by decide) (by decide)).2 h).1 (by decide)

/-- C10: after a build, the Producer selects the first entry of the
recursive listing of the current directory whose name matches the glob
hicstraw*<ext>; the matcher accepts exactly the decompositions
hicstraw-mid-ext of the name; and in particular a previously published
file inside the prebuilt repository directory is selected when it precedes
the fresh build output in the listing. -/
theorem producer_selects_first_glob_match :
    (∀ ext name, matchesHicstrawGlob ext name = true
      ↔ ∃ mid : String, name = "hicstraw" ++ mid ++ ext)
    ∧ (∀ system pre p post,
        (∀ q ∈ pre, matchesHicstrawGlob (extSuffixFor system) q.name = false) →
        matchesHicstrawGlob (extSuffixFor system) p.name = true →
        build_extension system (pre ++ p :: post) = Except.ok p)
    ∧ build_extension "Linux"
        [⟨"prebuilt", "hicstraw.linux.x86_64.cp3.9-3.9.so"⟩,
         ⟨"", "hicstraw.cpython-310-x86_64-linux-gnu.so"⟩]
        = Except.ok ⟨"prebuilt", "hicstraw.linux.x86_64.cp3.9-3.9.so"⟩
    ∧ matchesHicstrawGlob ".so" "hicstraw.cpython-310-x86_64-linux-gnu.so" = true :=
  ⟨glob_iff_decomposition, first_match_selected, rfl, by decide⟩

/-- Witness for C10: a concrete name built as hicstraw-mid-ext matches the
glob, and with a non-matching entry first in the listing the first
matching entry, lying inside the prebuilt directory, is the one selected
even though the fresh output appears later. -/
theorem producer_selects_first_glob_match_witness :
    matchesHicstrawGlob ".so" ("hicstraw" ++ ".old" ++ ".so") = true
    ∧ build_extension "Linux"
        ([⟨"docs", "readme.txt"⟩] ++ ⟨"prebuilt", "hicstraw.old.so"⟩
          :: [⟨"", "hicstraw.new.so"⟩])
        = Except.ok ⟨"prebuilt", "hicstraw.old.so"⟩ :=
  ⟨(producer_selects_first_glob_match.1 ".so" ("hicstraw" ++ ".old" ++ ".so")).mpr
      ⟨".old", rfl⟩,
   producer_selects_first_glob_match.2.1 "Linux" [⟨"docs", "readme.txt"⟩]
      ⟨"prebuilt", "hicstraw.old.so"⟩ [⟨"", "hicstraw.new.so"⟩]
      (by decide) (by decide)⟩

end Straw
